import Mathlib

/-!
# Verification of the verbena golden-output test harnesses

Shallow embedding of `src/test.py` (compile-then-run mode, flat corpus
layout) and `src/test_examples.py` (direct-run mode, per-case-directory
layout).  Each harness is modelled as a pure function of an *environment*:
the directory listing obtained during discovery, a file-existence oracle,
a file-read oracle (`none` models an `OSError` raised by `read_text`),
and per-case child-process oracles (`none` models an exception raised
while spawning or communicating with the process; `some r` a process that
ran and produced stdout/stderr/exit-code `r`).  Since the harness is
single-threaded and sequential, the second-stage `node a.mjs` run of
`test.py` is keyed by the path of the most recently compiled source file,
which determines the on-disk `a.mjs` artifact at that point.

The run state carries, besides the counters the Python code keeps
(`passed_count`, `skipped` / `skipped_count`), three instrumentation
traces: the lines printed, the child processes spawned (argv plus the
text written to the child on stdin), and the fixture files successfully
read.  A ghost `mismatched` counter counts comparison mismatches, which
the Python code reports but does not tally.  `sys.exit(1)` is modelled by
returning `Except.error` with the final state; falling off the end of
`main` (normal completion) yields exit status 0.
-/

/-- Captured result of one child process: stdout, stderr, exit code
(`subprocess` returns these after `communicate`). -/
structure ExecResult where
  stdout : String
  stderr : String
  exitCode : Int
deriving Repr, DecidableEq

/-- Record of one spawned child process: its argument vector and the text
written to its standard input (empty when the harness pipes nothing, as
for the `node a.mjs` stage whose stdin is not piped). -/
structure Spawn where
  argv : List String
  stdinData : String
deriving Repr, DecidableEq

/-- Path of the binary under test, as both harnesses invoke it. -/
def verbenaCmd : String := "./target/debug/verbena"

/-! ## test.py : compile-then-run mode over a flat `test/` corpus -/

/-- Environment of one `test.py` run: the `os.listdir("test")` names
already filtered to `.va` files with the extension stripped
(`get_example_files`), the filesystem oracles, and the two
child-process oracles.  `compiler p` is the outcome of
`subprocess.run(["./target/debug/verbena", p], ...)`; `node p` is the
outcome of `node a.mjs` run right after a successful compile of `p`
(the artifact `a.mjs` on disk is then the one produced from `p`). -/
structure Env1 where
  listing : List String
  fileExists : String → Bool
  readText : String → Option String
  compiler : String → Option ExecResult
  node : String → Option ExecResult

/-- Mutable state of one `test.py` run, plus instrumentation traces. -/
structure St1 where
  passed : Nat
  skipped : List String
  mismatched : Nat
  output : List String
  spawns : List Spawn
  reads : List String
deriving Repr, DecidableEq

/-- `Path("test_output") / f"{name}.txt"` -/
def expectedPath1 (name : String) : String := "test_output/" ++ name ++ ".txt"

/-- `Path("test") / f"{name}.va"` -/
def programPath1 (name : String) : String := "test/" ++ name ++ ".va"

/-- The two-line mismatch diagnostic of both harnesses, printed after the
case path:
`f"Output doesn\x27t match expected.\nExpected:\n{expected}\nActual:\n{stdout}"`. -/
def mismatchMsg (expected actual : String) : String :=
  "Output doesn\x27t match expected.\nExpected:\n" ++ expected ++ "\nActual:\n" ++ actual

/-- One iteration of the `for name in example_names` loop of
`test.py`.  `Except.error` models `sys.exit(1)`. -/
def processCase1 (env : Env1) (name : String) (s : St1) : Except St1 St1 :=
  let eof := expectedPath1 name
  if env.fileExists eof = false then
    .ok { s with skipped := s.skipped ++ [name] }
  else
    match env.readText eof with
    | none => .error { s with output := s.output ++ ["Failed to read " ++ eof] }
    | some expected =>
      let s1 := { s with reads := s.reads ++ [eof] }
      let pf := programPath1 name
      match env.compiler pf with
      | none =>
        .error { s1 with output := s1.output ++ [pf, "Failed to run compiler"] }
      | some cres =>
        let s2 := { s1 with spawns := s1.spawns ++ [Spawn.mk [verbenaCmd, pf] ""] }
        if cres.exitCode ≠ 0 then
          .error { s2 with
            output := s2.output ++ [pf, "Failed to compile: " ++ cres.stderr] }
        else
          match env.node pf with
          | none =>
            .error { s2 with
              output := s2.output ++ [pf, "Failed to run node on compiled output"] }
          | some r =>
            let s3 := { s2 with spawns := s2.spawns ++ [Spawn.mk ["node", "a.mjs"] ""] }
            if r.stderr ≠ "" then
              .error { s3 with output := s3.output ++ [pf, r.stderr] }
            else if r.exitCode ≠ 0 then
              .error { s3 with
                output := s3.output ++ [pf, "Exit code " ++ toString r.exitCode] }
            else if r.stdout = expected then
              .ok { s3 with passed := s3.passed + 1 }
            else
              .ok { s3 with
                      mismatched := s3.mismatched + 1,
                      output := s3.output ++ [pf, mismatchMsg expected r.stdout] }

/-- The `for` loop of `test.py`'s `main` over the discovered names. -/
def runCases1 (env : Env1) : List String → St1 → Except St1 St1
  | [], s => .ok s
  | name :: rest, s =>
    match processCase1 env name s with
    | .ok s2 => runCases1 env rest s2
    | .error s2 => .error s2

/-- Initial run state: `passed_count = 0`, `skipped = []`, nothing yet
printed, spawned or read. -/
def initSt1 : St1 := ⟨0, [], 0, [], [], []⟩

/-- Observable outcome of a whole harness run: process exit status,
everything printed, every child process spawned, and the final tallies. -/
structure RunResult where
  exitCode : Nat
  output : List String
  spawns : List Spawn
  passed : Nat
  skippedCount : Nat
deriving Repr, DecidableEq

/-- A whole `test.py` run: process every discovered case, then (only on
normal completion) print the summary — passed count, skipped count, and
each skipped name on its own line. -/
def runTest1 (env : Env1) : RunResult :=
  match runCases1 env env.listing initSt1 with
  | .ok s =>
    ⟨0,
     s.output ++ ["Passed : " ++ toString s.passed,
                  "Skipped: " ++ toString s.skipped.length] ++ s.skipped,
     s.spawns, s.passed, s.skipped.length⟩
  | .error s => ⟨1, s.output, s.spawns, s.passed, s.skipped.length⟩

/-! ## test_examples.py : direct-run mode over `examples/<name>/` dirs -/

/-- Environment of one `test_examples.py` run: the subdirectory names of
`examples` (`get_subdirs`), the filesystem oracles, and the interpreter
oracle: `interp p inp` is the outcome of
`subprocess.Popen(["./target/debug/verbena", p], ...)` with `inp`
written to the child's stdin by `communicate(input=inp)`. -/
structure Env2 where
  listing : List String
  fileExists : String → Bool
  readText : String → Option String
  interp : String → String → Option ExecResult

/-- Mutable state of one `test_examples.py` run.  Unlike `test.py`, this
harness keeps only a count of skipped cases, not their names; the ghost
`skippedNames` trace records which cases were skipped. -/
structure St2 where
  passed : Nat
  skippedCount : Nat
  skippedNames : List String
  mismatched : Nat
  output : List String
  spawns : List Spawn
  reads : List String
deriving Repr, DecidableEq

/-- `Path("examples") / name / "output.txt"` -/
def expectedPath2 (name : String) : String := "examples/" ++ name ++ "/output.txt"

/-- `Path("examples") / name / "input.txt"` -/
def inputPath2 (name : String) : String := "examples/" ++ name ++ "/input.txt"

/-- `Path("examples") / name / f"{name}.va"` -/
def programPath2 (name : String) : String :=
  "examples/" ++ name ++ "/" ++ name ++ ".va"

/-- The `input.txt` block of `test_examples.py`: if the input file exists
read it (an `OSError` is fatal), otherwise use the empty string without
touching the filesystem.  Returns the input text together with the list
of files read. -/
def resolveInput (env : Env2) (name : String) : Except String (String × List String) :=
  if env.fileExists (inputPath2 name) = true then
    match env.readText (inputPath2 name) with
    | none => .error ("Failed to read " ++ inputPath2 name)
    | some t => .ok (t, [inputPath2 name])
  else .ok ("", [])

/-- One iteration of the `for name in dirs` loop of `test_examples.py`.
`Except.error` models `sys.exit(1)`. -/
def processCase2 (env : Env2) (name : String) (s : St2) : Except St2 St2 :=
  let eof := expectedPath2 name
  if env.fileExists eof = false then
    .ok { s with skippedCount := s.skippedCount + 1,
                 skippedNames := s.skippedNames ++ [name] }
  else
    match env.readText eof with
    | none => .error { s with output := s.output ++ ["Failed to read " ++ eof] }
    | some expected =>
      let s1 := { s with reads := s.reads ++ [eof] }
      match resolveInput env name with
      | .error msg => .error { s1 with output := s1.output ++ [msg] }
      | .ok (inputData, inReads) =>
        let s2 := { s1 with reads := s1.reads ++ inReads }
        let pf := programPath2 name
        match env.interp pf inputData with
        | none =>
          .error { s2 with output := s2.output ++ [pf, "Failed to run interpreter"] }
        | some r =>
          let s3 := { s2 with spawns := s2.spawns ++ [Spawn.mk [verbenaCmd, pf] inputData] }
          if r.stderr ≠ "" then
            .error { s3 with output := s3.output ++ [pf, r.stderr] }
          else if r.exitCode ≠ 0 then
            .error { s3 with
              output := s3.output ++ [pf, "Exit code " ++ toString r.exitCode] }
          else if r.stdout = expected then
            .ok { s3 with passed := s3.passed + 1 }
          else
            .ok { s3 with
                    mismatched := s3.mismatched + 1,
                    output := s3.output ++ [pf, mismatchMsg expected r.stdout] }

/-- The `for` loop of `test_examples.py`'s `main`. -/
def runCases2 (env : Env2) : List String → St2 → Except St2 St2
  | [], s => .ok s
  | name :: rest, s =>
    match processCase2 env name s with
    | .ok s2 => runCases2 env rest s2
    | .error s2 => .error s2

/-- Initial run state for `test_examples.py`. -/
def initSt2 : St2 := ⟨0, 0, [], 0, [], [], []⟩

/-- A whole `test_examples.py` run.  On normal completion only the two
count lines are printed: this harness never lists the skipped names. -/
def runTest2 (env : Env2) : RunResult :=
  match runCases2 env env.listing initSt2 with
  | .ok s =>
    ⟨0,
     s.output ++ ["Passed : " ++ toString s.passed,
                  "Skipped: " ++ toString s.skippedCount],
     s.spawns, s.passed, s.skippedCount⟩
  | .error s => ⟨1, s.output, s.spawns, s.passed, s.skippedCount⟩

/-- The state carried by a loop outcome, whether normal or fatal. -/
def stateOf1 : Except St1 St1 → St1
  | .ok s => s
  | .error s => s

/-- The state carried by a loop outcome, whether normal or fatal. -/
def stateOf2 : Except St2 St2 → St2
  | .ok s => s
  | .error s => s

/-! ## Loop composition helpers -/

/-- Splitting the `test.py` case loop at a list append. -/
theorem runCases1_append (env : Env1) (a b : List String) (s : St1) :
    runCases1 env (a ++ b) s =
      match runCases1 env a s with
      | .ok s2 => runCases1 env b s2
      | .error s2 => .error s2 := by
  induction a generalizing s with
  | nil => simp [runCases1]
  | cons n rest ih =>
    simp only [List.cons_append, runCases1]
    cases processCase1 env n s with
    | ok s2 => exact ih s2
    | error s2 => rfl

/-- Splitting the `test_examples.py` case loop at a list append. -/
theorem runCases2_append (env : Env2) (a b : List String) (s : St2) :
    runCases2 env (a ++ b) s =
      match runCases2 env a s with
      | .ok s2 => runCases2 env b s2
      | .error s2 => .error s2 := by
  induction a generalizing s with
  | nil => simp [runCases2]
  | cons n rest ih =>
    simp only [List.cons_append, runCases2]
    cases processCase2 env n s with
    | ok s2 => exact ih s2
    | error s2 => rfl

/-- C1 -/
theorem c1_exact_comparison :
    (∀ (env : Env1) (name : String) (s : St1) (expected : String)
        (cres r : ExecResult),
      env.fileExists (expectedPath1 name) = true →
      env.readText (expectedPath1 name) = some expected →
      env.compiler (programPath1 name) = some cres →
      cres.exitCode = 0 →
      env.node (programPath1 name) = some r →
      r.stderr = "" → r.exitCode = 0 →
      (r.stdout = expected →
        processCase1 env name s =
          .ok ⟨s.passed + 1, s.skipped, s.mismatched, s.output,
               s.spawns ++ [Spawn.mk [verbenaCmd, programPath1 name] "",
                            Spawn.mk ["node", "a.mjs"] ""],
               s.reads ++ [expectedPath1 name]⟩) ∧
      (r.stdout ≠ expected →
        processCase1 env name s =
          .ok ⟨s.passed, s.skipped, s.mismatched + 1,
               s.output ++ [programPath1 name, mismatchMsg expected r.stdout],
               s.spawns ++ [Spawn.mk [verbenaCmd, programPath1 name] "",
                            Spawn.mk ["node", "a.mjs"] ""],
               s.reads ++ [expectedPath1 name]⟩) ∧
      (∀ (rest : List String) (s2 : St1), processCase1 env name s = .ok s2 →
        runCases1 env (name :: rest) s = runCases1 env rest s2)) ∧
    (∀ (env : Env2) (name : String) (s : St2) (expected input : String)
        (inReads : List String) (r : ExecResult),
      env.fileExists (expectedPath2 name) = true →
      env.readText (expectedPath2 name) = some expected →
      resolveInput env name = .ok (input, inReads) →
      env.interp (programPath2 name) input = some r →
      r.stderr = "" → r.exitCode = 0 →
      (r.stdout = expected →
        processCase2 env name s =
          .ok ⟨s.passed + 1, s.skippedCount, s.skippedNames, s.mismatched, s.output,
               s.spawns ++ [Spawn.mk [verbenaCmd, programPath2 name] input],
               s.reads ++ [expectedPath2 name] ++ inReads⟩) ∧
      (r.stdout ≠ expected →
        processCase2 env name s =
          .ok ⟨s.passed, s.skippedCount, s.skippedNames, s.mismatched + 1,
               s.output ++ [programPath2 name, mismatchMsg expected r.stdout],
               s.spawns ++ [Spawn.mk [verbenaCmd, programPath2 name] input],
               s.reads ++ [expectedPath2 name] ++ inReads⟩) ∧
      (∀ (rest : List String) (s2 : St2), processCase2 env name s = .ok s2 →
        runCases2 env (name :: rest) s = runCases2 env rest s2)) := by
  constructor
  · intro env name s expected cres r hex hrd hcomp hc0 hnode hse hec
    refine ⟨fun hst => ?_, fun hst => ?_, fun rest s2 hok => ?_⟩
    · simp [processCase1, hex, hrd, hcomp, hc0, hnode, hse, hec, hst]
    · simp [processCase1, hex, hrd, hcomp, hc0, hnode, hse, hec, hst]
    · simp [runCases1, hok]
  · intro env name s expected input inReads r hex hrd hinp hit hse hec
    refine ⟨fun hst => ?_, fun hst => ?_, fun rest s2 hok => ?_⟩
    · simp [processCase2, hex, hrd, hinp, hit, hse, hec, hst]
    · simp [processCase2, hex, hrd, hinp, hit, hse, hec, hst]
    · simp [runCases2, hok]

/-- Concrete direct-run environment: one case `arith`, expected output
`"20\n"`, no input file, interpreter printing `"20"` (missing trailing
newline) with empty stderr and exit code 0. -/
def egMismatchEnv2 : Env2 where
  listing := ["arith"]
  fileExists := fun p => p == expectedPath2 "arith"
  readText := fun p => if p == expectedPath2 "arith" then some "20\n" else none
  interp := fun p inp =>
    if p == programPath2 "arith" && inp == "" then some ⟨"20", "", 0⟩ else none

/-- Witness for C1: an actual output differing from the expected text only
by a trailing newline is a mismatch — the path and diagnostic are
printed, the passed counter stays 0, and the loop iteration still
returns normally. -/
theorem c1_exact_comparison_witness :
    processCase2 egMismatchEnv2 "arith" initSt2 =
      .ok ⟨0, 0, [], 1, [programPath2 "arith", mismatchMsg "20\n" "20"],
           [Spawn.mk [verbenaCmd, programPath2 "arith"] ""],
           [expectedPath2 "arith"]⟩ := by
  have h := (c1_exact_comparison.2 egMismatchEnv2 "arith" initSt2 "20\n" "" []
    ⟨"20", "", 0⟩ rfl rfl rfl rfl rfl rfl).2.1 (by decide)
  simpa [initSt2] using h

/-- C2: a case whose expected-output file does not exist is skipped in
both modes: the skip tally grows by one, no file is read, no child
process is spawned, nothing is printed, the counters are untouched, and
the loop proceeds directly to the next case.  The exact record equality
shows the `output`, `spawns` and `reads` traces unchanged. -/
theorem c2_missing_expected_skips :
    (∀ (env : Env1) (name : String) (s : St1),
      env.fileExists (expectedPath1 name) = false →
      processCase1 env name s =
        .ok ⟨s.passed, s.skipped ++ [name], s.mismatched,
             s.output, s.spawns, s.reads⟩ ∧
      ∀ (rest : List String), runCases1 env (name :: rest) s =
        runCases1 env rest
          ⟨s.passed, s.skipped ++ [name], s.mismatched,
           s.output, s.spawns, s.reads⟩) ∧
    (∀ (env : Env2) (name : String) (s : St2),
      env.fileExists (expectedPath2 name) = false →
      processCase2 env name s =
        .ok ⟨s.passed, s.skippedCount + 1, s.skippedNames ++ [name],
             s.mismatched, s.output, s.spawns, s.reads⟩ ∧
      ∀ (rest : List String), runCases2 env (name :: rest) s =
        runCases2 env rest
          ⟨s.passed, s.skippedCount + 1, s.skippedNames ++ [name],
           s.mismatched, s.output, s.spawns, s.reads⟩) := by
  constructor
  · intro env name s hex
    have h : processCase1 env name s =
        .ok ⟨s.passed, s.skipped ++ [name], s.mismatched,
             s.output, s.spawns, s.reads⟩ := by
      simp [processCase1, hex]
    exact ⟨h, fun rest => by simp [runCases1, h]⟩
  · intro env name s hex
    have h : processCase2 env name s =
        .ok ⟨s.passed, s.skippedCount + 1, s.skippedNames ++ [name],
             s.mismatched, s.output, s.spawns, s.reads⟩ := by
      simp [processCase2, hex]
    exact ⟨h, fun rest => by simp [runCases2, h]⟩

/-- Concrete direct-run environment: one case `arith` with no
expected-output fixture at all. -/
def egSkipEnv2 : Env2 where
  listing := ["arith"]
  fileExists := fun _ => false
  readText := fun _ => none
  interp := fun _ _ => none

/-- Witness for C2: the case lacking `examples/arith/output.txt` is
tallied as skipped with no read, spawn or print. -/
theorem c2_missing_expected_skips_witness :
    processCase2 egSkipEnv2 "arith" initSt2 =
      .ok ⟨0, 1, ["arith"], 0, [], [], []⟩ := by
  have h := (c2_missing_expected_skips.2 egSkipEnv2 "arith" initSt2 rfl).1
  simpa [initSt2] using h

/-- Concrete compile-then-run environment: one case `t1` whose compiler
invocation exits 0 but writes non-empty stderr, and whose second-stage
run matches the expected output. -/
def egWarnEnv1 : Env1 where
  listing := ["t1"]
  fileExists := fun p => p == expectedPath1 "t1"
  readText := fun p => if p == expectedPath1 "t1" then some "20\n" else none
  compiler := fun _ => some ⟨"", "warning: unused variable", 0⟩
  node := fun _ => some ⟨"20\n", "", 0⟩

/-- C3 counterexample: a compiler invocation that exits 0 with non-empty
stderr is NOT harness-fatal.  The whole run exits with status 0, counts
the case as passed, and the second-stage `node` process is spawned —
contradicting the claim that any non-empty child stderr aborts the run
with non-zero status. -/
theorem c3_counterexample :
    egWarnEnv1.compiler (programPath1 "t1") =
      some ⟨"", "warning: unused variable", 0⟩ ∧
    ("warning: unused variable" ≠ "") ∧
    runTest1 egWarnEnv1 =
      ⟨0, ["Passed : 1", "Skipped: 0"],
       [Spawn.mk [verbenaCmd, programPath1 "t1"] "",
        Spawn.mk ["node", "a.mjs"] ""],
       1, 0⟩ := by
  refine ⟨rfl, by decide, ?_⟩
  rfl

/-- C3 (amended): for the result-producing child process in both modes
(second-stage `node` run; direct-run interpreter), non-empty stderr or a
non-zero exit code is harness-fatal with a diagnostic naming the case
path; the first-stage compiler invocation is fatal only on a non-zero
exit code — a compiler exiting 0 with non-empty stderr is not fatal and
the harness proceeds to the second stage. -/
theorem c3_amended_fatality :
    (∀ (env : Env1) (name : String) (s : St1) (expected : String)
        (cres : ExecResult),
      env.fileExists (expectedPath1 name) = true →
      env.readText (expectedPath1 name) = some expected →
      env.compiler (programPath1 name) = some cres →
      cres.exitCode ≠ 0 →
      processCase1 env name s =
        .error ⟨s.passed, s.skipped, s.mismatched,
                s.output ++ [programPath1 name,
                             "Failed to compile: " ++ cres.stderr],
                s.spawns ++ [Spawn.mk [verbenaCmd, programPath1 name] ""],
                s.reads ++ [expectedPath1 name]⟩) ∧
    (∀ (env : Env1) (name : String) (s : St1) (expected : String)
        (cres r : ExecResult),
      env.fileExists (expectedPath1 name) = true →
      env.readText (expectedPath1 name) = some expected →
      env.compiler (programPath1 name) = some cres →
      cres.exitCode = 0 →
      env.node (programPath1 name) = some r →
      r.stderr ≠ "" →
      processCase1 env name s =
        .error ⟨s.passed, s.skipped, s.mismatched,
                s.output ++ [programPath1 name, r.stderr],
                s.spawns ++ [Spawn.mk [verbenaCmd, programPath1 name] "",
                             Spawn.mk ["node", "a.mjs"] ""],
                s.reads ++ [expectedPath1 name]⟩) ∧
    (∀ (env : Env1) (name : String) (s : St1) (expected : String)
        (cres r : ExecResult),
      env.fileExists (expectedPath1 name) = true →
      env.readText (expectedPath1 name) = some expected →
      env.compiler (programPath1 name) = some cres →
      cres.exitCode = 0 →
      env.node (programPath1 name) = some r →
      r.stderr = "" → r.exitCode ≠ 0 →
      processCase1 env name s =
        .error ⟨s.passed, s.skipped, s.mismatched,
                s.output ++ [programPath1 name,
                             "Exit code " ++ toString r.exitCode],
                s.spawns ++ [Spawn.mk [verbenaCmd, programPath1 name] "",
                             Spawn.mk ["node", "a.mjs"] ""],
                s.reads ++ [expectedPath1 name]⟩) ∧
    (∀ (env : Env1) (name : String) (s : St1) (expected : String)
        (cres r : ExecResult),
      env.fileExists (expectedPath1 name) = true →
      env.readText (expectedPath1 name) = some expected →
      env.compiler (programPath1 name) = some cres →
      cres.exitCode = 0 →
      env.node (programPath1 name) = some r →
      r.stderr = "" → r.exitCode = 0 → r.stdout = expected →
      processCase1 env name s =
        .ok ⟨s.passed + 1, s.skipped, s.mismatched, s.output,
             s.spawns ++ [Spawn.mk [verbenaCmd, programPath1 name] "",
                          Spawn.mk ["node", "a.mjs"] ""],
             s.reads ++ [expectedPath1 name]⟩) ∧
    (∀ (env : Env2) (name : String) (s : St2) (expected input : String)
        (inReads : List String) (r : ExecResult),
      env.fileExists (expectedPath2 name) = true →
      env.readText (expectedPath2 name) = some expected →
      resolveInput env name = .ok (input, inReads) →
      env.interp (programPath2 name) input = some r →
      r.stderr ≠ "" →
      processCase2 env name s =
        .error ⟨s.passed, s.skippedCount, s.skippedNames, s.mismatched,
                s.output ++ [programPath2 name, r.stderr],
                s.spawns ++ [Spawn.mk [verbenaCmd, programPath2 name] input],
                s.reads ++ [expectedPath2 name] ++ inReads⟩) ∧
    (∀ (env : Env2) (name : String) (s : St2) (expected input : String)
        (inReads : List String) (r : ExecResult),
      env.fileExists (expectedPath2 name) = true →
      env.readText (expectedPath2 name) = some expected →
      resolveInput env name = .ok (input, inReads) →
      env.interp (programPath2 name) input = some r →
      r.stderr = "" → r.exitCode ≠ 0 →
      processCase2 env name s =
        .error ⟨s.passed, s.skippedCount, s.skippedNames, s.mismatched,
                s.output ++ [programPath2 name,
                             "Exit code " ++ toString r.exitCode],
                s.spawns ++ [Spawn.mk [verbenaCmd, programPath2 name] input],
                s.reads ++ [expectedPath2 name] ++ inReads⟩) := by
  refine ⟨?_, ?_, ?_, ?_, ?_, ?_⟩
  · intro env name s expected cres hex hrd hcomp hc
    simp [processCase1, hex, hrd, hcomp, hc]
  · intro env name s expected cres r hex hrd hcomp hc0 hnode hse
    simp [processCase1, hex, hrd, hcomp, hc0, hnode, hse]
  · intro env name s expected cres r hex hrd hcomp hc0 hnode hse hec
    simp [processCase1, hex, hrd, hcomp, hc0, hnode, hse, hec]
  · intro env name s expected cres r hex hrd hcomp hc0 hnode hse hec hst
    simp [processCase1, hex, hrd, hcomp, hc0, hnode, hse, hec, hst]
  · intro env name s expected input inReads r hex hrd hinp hit hse
    simp [processCase2, hex, hrd, hinp, hit, hse]
  · intro env name s expected input inReads r hex hrd hinp hit hse hec
    simp [processCase2, hex, hrd, hinp, hit, hse, hec]

/-- Concrete compile-then-run environment: one case `t1` whose compiler
invocation exits 2 with a diagnostic on stderr. -/
def egCompFailEnv1 : Env1 where
  listing := ["t1"]
  fileExists := fun p => p == expectedPath1 "t1"
  readText := fun p => if p == expectedPath1 "t1" then some "20\n" else none
  compiler := fun _ => some ⟨"", "syntax error", 2⟩
  node := fun _ => none

/-- Witness for amended C3: a compiler exiting 2 aborts the iteration
fatally with the path and diagnostic, while a compiler exiting 0 with a
warning on stderr lets the case pass via the second stage. -/
theorem c3_amended_fatality_witness :
    processCase1 egCompFailEnv1 "t1" initSt1 =
      .error ⟨0, [], 0, [programPath1 "t1", "Failed to compile: syntax error"],
              [Spawn.mk [verbenaCmd, programPath1 "t1"] ""],
              [expectedPath1 "t1"]⟩ ∧
    processCase1 egWarnEnv1 "t1" initSt1 =
      .ok ⟨1, [], 0, [],
           [Spawn.mk [verbenaCmd, programPath1 "t1"] "",
            Spawn.mk ["node", "a.mjs"] ""],
           [expectedPath1 "t1"]⟩ := by
  constructor
  · have h := c3_amended_fatality.1 egCompFailEnv1 "t1" initSt1 "20\n"
      ⟨"", "syntax error", 2⟩ rfl rfl rfl (by decide)
    simpa [initSt1] using h
  · have h := c3_amended_fatality.2.2.2.1 egWarnEnv1 "t1" initSt1 "20\n"
      ⟨"", "warning: unused variable", 0⟩ ⟨"20\n", "", 0⟩ rfl rfl rfl rfl rfl
      rfl rfl rfl
    simpa [initSt1] using h

/-- C4: once a result-producing child process yields non-empty stderr or
a non-zero exit code, the whole run stops: the process exit status is 1,
the output is exactly what was printed so far plus the case path and one
diagnostic (so the passed/skipped summary is never printed), and the
spawn trace ends with this case's processes (so no later case spawns
anything). -/
theorem c4_fatal_stops_run :
    (∀ (env : Env1) (done rest : List String) (name : String) (s : St1)
        (expected : String) (cres r : ExecResult),
      env.listing = done ++ name :: rest →
      runCases1 env done initSt1 = .ok s →
      env.fileExists (expectedPath1 name) = true →
      env.readText (expectedPath1 name) = some expected →
      env.compiler (programPath1 name) = some cres →
      cres.exitCode = 0 →
      env.node (programPath1 name) = some r →
      (r.stderr ≠ "" ∨ (r.stderr = "" ∧ r.exitCode ≠ 0)) →
      ∃ (d : String), runTest1 env =
        ⟨1, s.output ++ [programPath1 name, d],
         s.spawns ++ [Spawn.mk [verbenaCmd, programPath1 name] "",
                      Spawn.mk ["node", "a.mjs"] ""],
         s.passed, s.skipped.length⟩) ∧
    (∀ (env : Env2) (done rest : List String) (name : String) (s : St2)
        (expected input : String) (inReads : List String) (r : ExecResult),
      env.listing = done ++ name :: rest →
      runCases2 env done initSt2 = .ok s →
      env.fileExists (expectedPath2 name) = true →
      env.readText (expectedPath2 name) = some expected →
      resolveInput env name = .ok (input, inReads) →
      env.interp (programPath2 name) input = some r →
      (r.stderr ≠ "" ∨ (r.stderr = "" ∧ r.exitCode ≠ 0)) →
      ∃ (d : String), runTest2 env =
        ⟨1, s.output ++ [programPath2 name, d],
         s.spawns ++ [Spawn.mk [verbenaCmd, programPath2 name] input],
         s.passed, s.skippedCount⟩) := by
  constructor
  · intro env done rest name s expected cres r hl hdone hex hrd hcomp hc0 hnode hbad
    have key : ∀ (e : St1), processCase1 env name s = .error e →
        runTest1 env = ⟨1, e.output, e.spawns, e.passed, e.skipped.length⟩ := by
      intro e herr
      have hrun : runCases1 env env.listing initSt1 = .error e := by
        rw [hl, runCases1_append, hdone]
        simp [runCases1, herr]
      simp [runTest1, hrun]
    rcases hbad with hse | ⟨hse, hec⟩
    · have herr : processCase1 env name s =
          .error ⟨s.passed, s.skipped, s.mismatched,
                  s.output ++ [programPath1 name, r.stderr],
                  s.spawns ++ [Spawn.mk [verbenaCmd, programPath1 name] "",
                               Spawn.mk ["node", "a.mjs"] ""],
                  s.reads ++ [expectedPath1 name]⟩ := by
        simp [processCase1, hex, hrd, hcomp, hc0, hnode, hse]
      exact ⟨r.stderr, key _ herr⟩
    · have herr : processCase1 env name s =
          .error ⟨s.passed, s.skipped, s.mismatched,
                  s.output ++ [programPath1 name, "Exit code " ++ toString r.exitCode],
                  s.spawns ++ [Spawn.mk [verbenaCmd, programPath1 name] "",
                               Spawn.mk ["node", "a.mjs"] ""],
                  s.reads ++ [expectedPath1 name]⟩ := by
        simp [processCase1, hex, hrd, hcomp, hc0, hnode, hse, hec]
      exact ⟨"Exit code " ++ toString r.exitCode, key _ herr⟩
  · intro env done rest name s expected input inReads r hl hdone hex hrd hinp hit hbad
    have key : ∀ (e : St2), processCase2 env name s = .error e →
        runTest2 env = ⟨1, e.output, e.spawns, e.passed, e.skippedCount⟩ := by
      intro e herr
      have hrun : runCases2 env env.listing initSt2 = .error e := by
        rw [hl, runCases2_append, hdone]
        simp [runCases2, herr]
      simp [runTest2, hrun]
    rcases hbad with hse | ⟨hse, hec⟩
    · have herr : processCase2 env name s =
          .error ⟨s.passed, s.skippedCount, s.skippedNames, s.mismatched,
                  s.output ++ [programPath2 name, r.stderr],
                  s.spawns ++ [Spawn.mk [verbenaCmd, programPath2 name] input],
                  s.reads ++ [expectedPath2 name] ++ inReads⟩ := by
        simp [processCase2, hex, hrd, hinp, hit, hse]
      exact ⟨r.stderr, key _ herr⟩
    · have herr : processCase2 env name s =
          .error ⟨s.passed, s.skippedCount, s.skippedNames, s.mismatched,
                  s.output ++ [programPath2 name, "Exit code " ++ toString r.exitCode],
                  s.spawns ++ [Spawn.mk [verbenaCmd, programPath2 name] input],
                  s.reads ++ [expectedPath2 name] ++ inReads⟩ := by
        simp [processCase2, hex, hrd, hinp, hit, hse, hec]
      exact ⟨"Exit code " ++ toString r.exitCode, key _ herr⟩

/-- Concrete direct-run environment: two cases `a` and `b`, both with
expected outputs; the interpreter writes `boom` to stderr on case `a`. -/
def egFatalEnv2 : Env2 where
  listing := ["a", "b"]
  fileExists := fun p => p == expectedPath2 "a" || p == expectedPath2 "b"
  readText := fun p =>
    if p == expectedPath2 "a" || p == expectedPath2 "b" then some "20\n" else none
  interp := fun p _ =>
    if p == programPath2 "a" then some ⟨"", "boom", 1⟩ else some ⟨"20\n", "", 0⟩

/-- Witness for C4: after case `a` writes to stderr, the run exits with
status 1, case `b` is never spawned, and no summary is printed. -/
theorem c4_fatal_stops_run_witness :
    ∃ (d : String), runTest2 egFatalEnv2 =
      ⟨1, [programPath2 "a", d],
       [Spawn.mk [verbenaCmd, programPath2 "a"] ""], 0, 0⟩ := by
  have h := c4_fatal_stops_run.2 egFatalEnv2 [] ["b"] "a" initSt2 "20\n" "" []
    ⟨"", "boom", 1⟩ rfl rfl rfl rfl rfl rfl (Or.inl (by decide))
  simpa [initSt2] using h

/-- C5: in compile-then-run mode, a compiler invocation with non-zero
exit code aborts the run with status 1, printing the case path and the
compiler's stderr diagnostic; the spawn trace ends with the compiler
invocation, so the second-stage `node` process is never spawned (nor is
any later case). -/
theorem c5_compile_failure_fatal (env : Env1) (done rest : List String)
    (name : String) (s : St1) (expected : String) (cres : ExecResult)
    (hl : env.listing = done ++ name :: rest)
    (hdone : runCases1 env done initSt1 = .ok s)
    (hex : env.fileExists (expectedPath1 name) = true)
    (hrd : env.readText (expectedPath1 name) = some expected)
    (hcomp : env.compiler (programPath1 name) = some cres)
    (hc : cres.exitCode ≠ 0) :
    runTest1 env =
      ⟨1, s.output ++ [programPath1 name, "Failed to compile: " ++ cres.stderr],
       s.spawns ++ [Spawn.mk [verbenaCmd, programPath1 name] ""],
       s.passed, s.skipped.length⟩ := by
  have herr : processCase1 env name s =
      .error ⟨s.passed, s.skipped, s.mismatched,
              s.output ++ [programPath1 name, "Failed to compile: " ++ cres.stderr],
              s.spawns ++ [Spawn.mk [verbenaCmd, programPath1 name] ""],
              s.reads ++ [expectedPath1 name]⟩ := by
    simp [processCase1, hex, hrd, hcomp, hc]
  have hrun : runCases1 env env.listing initSt1 =
      .error ⟨s.passed, s.skipped, s.mismatched,
              s.output ++ [programPath1 name, "Failed to compile: " ++ cres.stderr],
              s.spawns ++ [Spawn.mk [verbenaCmd, programPath1 name] ""],
              s.reads ++ [expectedPath1 name]⟩ := by
    rw [hl, runCases1_append, hdone]
    simp [runCases1, herr]
  simp [runTest1, hrun]

/-- Witness for C5: the compiler exiting 2 on case `t1` makes the whole
run abort with its stderr printed and no `node` spawn. -/
theorem c5_compile_failure_fatal_witness :
    runTest1 egCompFailEnv1 =
      ⟨1, [programPath1 "t1", "Failed to compile: syntax error"],
       [Spawn.mk [verbenaCmd, programPath1 "t1"] ""], 0, 0⟩ := by
  have h := c5_compile_failure_fatal egCompFailEnv1 [] [] "t1" initSt1 "20\n"
    ⟨"", "syntax error", 2⟩ rfl rfl rfl rfl rfl (by decide)
  simpa [initSt1] using h

/-- Whatever the interpreter's result, a runnable `test_examples.py` case
spawns exactly one child — the interpreter on the case's source path with
the resolved input on stdin — and never touches the skip tally. -/
theorem processCase2_spawn_delta (env : Env2) (name : String) (s : St2)
    (expected input : String) (inReads : List String) (r : ExecResult)
    (hex : env.fileExists (expectedPath2 name) = true)
    (hrd : env.readText (expectedPath2 name) = some expected)
    (hinp : resolveInput env name = .ok (input, inReads))
    (hit : env.interp (programPath2 name) input = some r) :
    (stateOf2 (processCase2 env name s)).spawns =
      s.spawns ++ [Spawn.mk [verbenaCmd, programPath2 name] input] ∧
    (stateOf2 (processCase2 env name s)).skippedCount = s.skippedCount := by
  by_cases h1 : r.stderr = ""
  · by_cases h2 : r.exitCode = 0
    · by_cases h3 : r.stdout = expected
      · simp [processCase2, hex, hrd, hinp, hit, h1, h2, h3, stateOf2]
      · simp [processCase2, hex, hrd, hinp, hit, h1, h2, h3, stateOf2]
    · simp [processCase2, hex, hrd, hinp, hit, h1, h2, stateOf2]
  · simp [processCase2, hex, hrd, hinp, hit, h1, stateOf2]

/-- C6: in direct-run mode a missing input file silently resolves to the
empty string, an existing one to its verbatim contents, and the resolved
text is exactly what is written to the spawned interpreter's stdin. -/
theorem c6_input_resolution :
    (∀ (env : Env2) (name : String),
      env.fileExists (inputPath2 name) = false →
      resolveInput env name = .ok ("", [])) ∧
    (∀ (env : Env2) (name t : String),
      env.fileExists (inputPath2 name) = true →
      env.readText (inputPath2 name) = some t →
      resolveInput env name = .ok (t, [inputPath2 name])) ∧
    (∀ (env : Env2) (name : String) (s : St2) (expected input : String)
        (inReads : List String) (r : ExecResult),
      env.fileExists (expectedPath2 name) = true →
      env.readText (expectedPath2 name) = some expected →
      resolveInput env name = .ok (input, inReads) →
      env.interp (programPath2 name) input = some r →
      (stateOf2 (processCase2 env name s)).spawns =
        s.spawns ++ [Spawn.mk [verbenaCmd, programPath2 name] input]) := by
  refine ⟨?_, ?_, ?_⟩
  · intro env name h
    simp [resolveInput, h]
  · intro env name t h hr
    simp [resolveInput, h, hr]
  · intro env name s expected input inReads r hex hrd hinp hit
    exact (processCase2_spawn_delta env name s expected input inReads r
      hex hrd hinp hit).1

/-- Concrete direct-run environment: one case `io` with both an expected
output and an input fixture; the interpreter echoes its input. -/
def egInputEnv2 : Env2 where
  listing := ["io"]
  fileExists := fun p => p == expectedPath2 "io" || p == inputPath2 "io"
  readText := fun p =>
    if p == expectedPath2 "io" then some "world\n"
    else if p == inputPath2 "io" then some "world\n" else none
  interp := fun p inp =>
    if p == programPath2 "io" then some ⟨inp, "", 0⟩ else none

/-- Witness for C6: case `arith` (no input fixture) gets empty stdin;
case `io` (with `input.txt` containing `"world\n"`) gets that text on
the interpreter's stdin. -/
theorem c6_input_resolution_witness :
    resolveInput egMismatchEnv2 "arith" = .ok ("", []) ∧
    resolveInput egInputEnv2 "io" = .ok ("world\n", [inputPath2 "io"]) ∧
    (stateOf2 (processCase2 egInputEnv2 "io" initSt2)).spawns =
      [Spawn.mk [verbenaCmd, programPath2 "io"] "world\n"] := by
  refine ⟨c6_input_resolution.1 egMismatchEnv2 "arith" rfl,
          c6_input_resolution.2.1 egInputEnv2 "io" "world\n" rfl rfl, ?_⟩
  have h := c6_input_resolution.2.2 egInputEnv2 "io" initSt2 "world\n" "world\n"
    [inputPath2 "io"] ⟨"world\n", "", 0⟩ rfl rfl
    (c6_input_resolution.2.1 egInputEnv2 "io" "world\n" rfl rfl) rfl
  simpa [initSt2] using h

/-- C10: in direct-run mode the harness never checks that the case's
source file exists: even when `examples/<name>/<name>.va` is absent, a
runnable case still spawns the interpreter with that nonexistent path as
its argument, and is neither skipped nor reported as a fixture error by
the harness itself. -/
theorem c10_source_never_checked (env : Env2) (name : String) (s : St2)
    (expected input : String) (inReads : List String) (r : ExecResult)
    (hex : env.fileExists (expectedPath2 name) = true)
    (hrd : env.readText (expectedPath2 name) = some expected)
    (hinp : resolveInput env name = .ok (input, inReads))
    (hsrc : env.fileExists (programPath2 name) = false)
    (hit : env.interp (programPath2 name) input = some r) :
    (stateOf2 (processCase2 env name s)).spawns =
      s.spawns ++ [Spawn.mk [verbenaCmd, programPath2 name] input] ∧
    (stateOf2 (processCase2 env name s)).skippedCount = s.skippedCount := by
  exact processCase2_spawn_delta env name s expected input inReads r hex hrd hinp hit

/-- Concrete direct-run environment: case `ghost` has an expected output
but no source file `examples/ghost/ghost.va`; the interpreter binary
(spawned anyway) reports the missing file on stderr. -/
def egNoSrcEnv2 : Env2 where
  listing := ["ghost"]
  fileExists := fun p => p == expectedPath2 "ghost"
  readText := fun p => if p == expectedPath2 "ghost" then some "20\n" else none
  interp := fun p _ =>
    if p == programPath2 "ghost" then some ⟨"", "No such file", 1⟩ else none

/-- Witness for C10: with `examples/ghost/ghost.va` absent, the
interpreter is still spawned on that path and the case is not skipped. -/
theorem c10_source_never_checked_witness :
    egNoSrcEnv2.fileExists (programPath2 "ghost") = false ∧
    (stateOf2 (processCase2 egNoSrcEnv2 "ghost" initSt2)).spawns =
      [Spawn.mk [verbenaCmd, programPath2 "ghost"] ""] ∧
    (stateOf2 (processCase2 egNoSrcEnv2 "ghost" initSt2)).skippedCount = 0 := by
  have h := c10_source_never_checked egNoSrcEnv2 "ghost" initSt2 "20\n" "" []
    ⟨"", "No such file", 1⟩ rfl rfl rfl (by decide) rfl
  exact ⟨by decide, by simpa [initSt2] using h.1, by simpa [initSt2] using h.2⟩

/-- Concrete direct-run environment for the skip summary: one case
`arith` with no expected-output fixture. -/
def egSkipSummaryEnv2 : Env2 where
  listing := ["arith"]
  fileExists := fun _ => false
  readText := fun _ => none
  interp := fun _ _ => none

/-- C7 counterexample: in direct-run mode a skipped case's identifier is
never printed.  With case `arith` skipped, the run prints only the two
count lines, and the string `arith` appears nowhere in the output —
contradicting the claim that both modes list every skipped case. -/
theorem c7_counterexample :
    runTest2 egSkipSummaryEnv2 =
      ⟨0, ["Passed : 0", "Skipped: 1"], [], 0, 1⟩ ∧
    "arith" ∉ (runTest2 egSkipSummaryEnv2).output := by
  refine ⟨rfl, ?_⟩
  decide

/-- C7 (amended): at the end of a non-aborted run both modes print the
total passed count and the total skipped count; the compile-then-run
harness additionally prints each skipped case's identifier, while the
direct-run harness prints only the two count lines and never lists the
skipped identifiers. -/
theorem c7_summary_reporting :
    (∀ (env : Env1) (s : St1),
      runCases1 env env.listing initSt1 = .ok s →
      runTest1 env =
        ⟨0, s.output ++ ["Passed : " ++ toString s.passed,
                         "Skipped: " ++ toString s.skipped.length] ++ s.skipped,
         s.spawns, s.passed, s.skipped.length⟩) ∧
    (∀ (env : Env2) (s : St2),
      runCases2 env env.listing initSt2 = .ok s →
      runTest2 env =
        ⟨0, s.output ++ ["Passed : " ++ toString s.passed,
                         "Skipped: " ++ toString s.skippedCount],
         s.spawns, s.passed, s.skippedCount⟩) := by
  constructor
  · intro env s h
    simp [runTest1, h]
  · intro env s h
    simp [runTest2, h]

/-- Concrete compile-then-run environment: one case `t1` with no
expected-output fixture. -/
def egSkipSummaryEnv1 : Env1 where
  listing := ["t1"]
  fileExists := fun _ => false
  readText := fun _ => none
  compiler := fun _ => none
  node := fun _ => none

/-- Witness for amended C7: the compile-then-run harness ends its run by
printing the counts and then the skipped name `t1`; the direct-run
harness ends with the two count lines only. -/
theorem c7_summary_reporting_witness :
    runTest1 egSkipSummaryEnv1 =
      ⟨0, ["Passed : 0", "Skipped: 1", "t1"], [], 0, 1⟩ ∧
    runTest2 egSkipSummaryEnv2 =
      ⟨0, ["Passed : 0", "Skipped: 1"], [], 0, 1⟩ := by
  constructor
  · have h := c7_summary_reporting.1 egSkipSummaryEnv1
      ⟨0, ["t1"], 0, [], [], []⟩ rfl
    simpa using h
  · have h := c7_summary_reporting.2 egSkipSummaryEnv2
      ⟨0, 1, ["arith"], 0, [], [], []⟩ rfl
    simpa using h

/-- Every non-fatal `test.py` loop iteration settles its case exactly one
way — pass, skip, or mismatch — so the three tallies together grow by
one. -/
theorem processCase1_ok_count (env : Env1) (name : String) (s s2 : St1)
    (h : processCase1 env name s = .ok s2) :
    s2.passed + s2.skipped.length + s2.mismatched =
      s.passed + s.skipped.length + s.mismatched + 1 := by
  unfold processCase1 at h
  dsimp only at h
  repeat' split at h
  all_goals cases h
  all_goals simp [List.length_append]
  all_goals omega

/-- Every non-fatal `test_examples.py` loop iteration settles its case
exactly one way: pass, skip, or mismatch. -/
theorem processCase2_ok_count (env : Env2) (name : String) (s s2 : St2)
    (h : processCase2 env name s = .ok s2) :
    s2.passed + s2.skippedCount + s2.mismatched =
      s.passed + s.skippedCount + s.mismatched + 1 := by
  unfold processCase2 at h
  dsimp only at h
  repeat' split at h
  all_goals cases h
  all_goals simp
  all_goals omega

/-- Over a normally completed `test.py` loop the three tallies grow by
exactly the number of cases processed. -/
theorem runCases1_count (env : Env1) (l : List String) : ∀ (s s2 : St1),
    runCases1 env l s = .ok s2 →
    s2.passed + s2.skipped.length + s2.mismatched =
      s.passed + s.skipped.length + s.mismatched + l.length := by
  induction l with
  | nil =>
    intro s s2 h
    cases h
    simp
  | cons n rest ih =>
    intro s s2 h
    unfold runCases1 at h
    split at h
    · have h1 := processCase1_ok_count env n s _ (by assumption)
      have h2 := ih _ s2 h
      simp only [List.length_cons]
      omega
    · cases h

/-- Over a normally completed `test_examples.py` loop the three tallies
grow by exactly the number of cases processed. -/
theorem runCases2_count (env : Env2) (l : List String) : ∀ (s s2 : St2),
    runCases2 env l s = .ok s2 →
    s2.passed + s2.skippedCount + s2.mismatched =
      s.passed + s.skippedCount + s.mismatched + l.length := by
  induction l with
  | nil =>
    intro s s2 h
    cases h
    simp
  | cons n rest ih =>
    intro s s2 h
    unfold runCases2 at h
    split at h
    · have h1 := processCase2_ok_count env n s _ (by assumption)
      have h2 := ih _ s2 h
      simp only [List.length_cons]
      omega
    · cases h

/-- C8: in a run that completes normally, the number of discovered cases
equals the passed tally plus the skipped tally plus the number of
comparison mismatches, in both modes — so the passed count undercounts
the total by exactly the mismatch count. -/
theorem c8_case_partition :
    (∀ (env : Env1) (s : St1),
      runCases1 env env.listing initSt1 = .ok s →
      env.listing.length = s.passed + s.skipped.length + s.mismatched) ∧
    (∀ (env : Env2) (s : St2),
      runCases2 env env.listing initSt2 = .ok s →
      env.listing.length = s.passed + s.skippedCount + s.mismatched) := by
  constructor
  · intro env s h
    have hc := runCases1_count env env.listing initSt1 s h
    simp [initSt1] at hc
    omega
  · intro env s h
    have hc := runCases2_count env env.listing initSt2 s h
    simp [initSt2] at hc
    omega

/-- Concrete direct-run environment with one passing case `p`, one
mismatching case `m`, and one skipped case `s` (no expected output). -/
def egMixEnv2 : Env2 where
  listing := ["p", "m", "s"]
  fileExists := fun q => q == expectedPath2 "p" || q == expectedPath2 "m"
  readText := fun q =>
    if q == expectedPath2 "p" || q == expectedPath2 "m" then some "20\n" else none
  interp := fun q _ =>
    if q == programPath2 "p" then some ⟨"20\n", "", 0⟩
    else if q == programPath2 "m" then some ⟨"19\n", "", 0⟩ else none

/-- Witness for C8: in a three-case run that passes one case, mismatches
one, and skips one, 3 = 1 + 1 + 1. -/
theorem c8_case_partition_witness :
    runCases2 egMixEnv2 egMixEnv2.listing initSt2 =
      .ok ⟨1, 1, ["s"], 1,
           [programPath2 "m", mismatchMsg "20\n" "19\n"],
           [Spawn.mk [verbenaCmd, programPath2 "p"] "",
            Spawn.mk [verbenaCmd, programPath2 "m"] ""],
           [expectedPath2 "p", expectedPath2 "m"]⟩ ∧
    egMixEnv2.listing.length = 1 + 1 + 1 := by
  refine ⟨rfl, ?_⟩
  exact c8_case_partition.2 egMixEnv2
    ⟨1, 1, ["s"], 1,
     [programPath2 "m", mismatchMsg "20\n" "19\n"],
     [Spawn.mk [verbenaCmd, programPath2 "p"] "",
      Spawn.mk [verbenaCmd, programPath2 "m"] ""],
     [expectedPath2 "p", expectedPath2 "m"]⟩ rfl

/-- C9: each harness is deterministic in its environment — two runs
against identical directory listings, identical fixture files, and
binaries under test with identical stdout/stderr/exit-code behaviour
produce identical outcomes: exit status, printed output, spawn trace and
tallies, hence identical per-case verdicts. -/
theorem c9_deterministic :
    (∀ (e1 e2 : Env1), e1.listing = e2.listing →
      e1.fileExists = e2.fileExists → e1.readText = e2.readText →
      e1.compiler = e2.compiler → e1.node = e2.node →
      runTest1 e1 = runTest1 e2) ∧
    (∀ (e1 e2 : Env2), e1.listing = e2.listing →
      e1.fileExists = e2.fileExists → e1.readText = e2.readText →
      e1.interp = e2.interp →
      runTest2 e1 = runTest2 e2) := by
  constructor
  · intro e1 e2 h1 h2 h3 h4 h5
    cases e1
    cases e2
    simp_all
  · intro e1 e2 h1 h2 h3 h4
    cases e1
    cases e2
    simp_all

/-- Witness for C9: two runs against the same concrete environment agree. -/
theorem c9_deterministic_witness :
    runTest2 egMixEnv2 = runTest2 egMixEnv2 :=
  c9_deterministic.2 egMixEnv2 egMixEnv2 rfl rfl rfl rfl
